import Mathlib

/-!
Shallow embedding of the background job orchestration subsystem of the
instant-art-ai repository: the generation-job processor
(supabase/functions/process-generation-job/index.ts), the export-job
processor (supabase/functions/export-book-zip/index.ts), and the
client-side export dedup guard
(src/components/coloring/ExportAllButton.tsx).

External effects (provider HTTP calls, storage uploads/removals) are
modelled by oracle inputs describing the outcome of each call; database
rows are explicit structures and every handler is a pure state
transition on them, translated branch by branch from the source.
-/

namespace InstantArt

/-- Job status column: CHECK (status IN ('pending','processing','completed','failed')). -/
inductive JobStatus where
  | pending
  | processing
  | completed
  | failed
deriving DecidableEq, Repr

/-- A row of public.book_pages (migration 20260205): book_id, user_id, prompt,
image_url, page_number INTEGER, art_style. `id` is the generated UUID key. -/
structure Page where
  id : String
  book_id : String
  user_id : String
  page_number : Int
  prompt : String
  image_url : String
  art_style : String
deriving DecidableEq, Repr

/-- Rows of book_pages belonging to one book: the `.eq("book_id", ...)` filter
used by both processors. -/
def bookPages (pages : List Page) (bookId : String) : List Page :=
  pages.filter (fun p => p.book_id = bookId)

/-- Maximum page_number of a list of pages (`order page_number desc limit 1`);
none when the list is empty (the query returns no row). -/
def maxPageNum? : List Page → Option Int
  | [] => none
  | p :: ps =>
    some (match maxPageNum? ps with
          | none => p.page_number
          | some m => max p.page_number m)

/-- JavaScript `x || 0` on a number: 0 is falsy, everything else is itself. -/
def jsOrZero (x : Int) : Int :=
  if x = 0 then 0 else x

/-- The computation `(existingPages?.[0]?.page_number || 0) + 1` from
process-generation-job/index.ts line 103: next sequence position for a book. -/
def nextPageNumber (pages : List Page) : Int :=
  (match maxPageNum? pages with
   | none => 0
   | some m => jsOrZero m) + 1

/-- A row of public.generation_jobs (migration 20260125).  `completed_at` records
whether the completed_at timestamp column has been set. -/
structure GenJob where
  book_id : String
  user_id : String
  status : JobStatus
  prompts : List String
  completed_count : Nat
  failed_count : Nat
  error_message : Option String
  completed_at : Bool
deriving DecidableEq, Repr

/-- Database state visible to one generation-processor invocation: the
generation_jobs row for the requested job id (none = not found) and the
book_pages table. -/
structure GenDb where
  job : Option GenJob
  pages : List Page
deriving DecidableEq, Repr

/-- Request body of process-generation-job: `{ jobId, promptIndex = 0 }`.
`hasJobId` is whether the body carried a (truthy) jobId; `promptIndex = none`
models the field being omitted, defaulted to 0 by the destructuring. -/
structure GenRequest where
  hasJobId : Bool
  promptIndex : Option Nat
deriving DecidableEq, Repr

/-- Outcome of the provider call attempt (generateWithCloudflare /
generateWithLovableAI wrapped in try/catch at lines 119-132):
`artifact url` = resolved with a non-null image; `noArtifact` = resolved null
(Lovable response with no image, line 295); `error status` = the call threw —
both helpers throw on any non-ok HTTP status, carrying that status code. -/
inductive ProviderResult where
  | artifact (url : String)
  | noArtifact
  | error (status : Nat)
deriving DecidableEq, Repr

/-- Environment oracle for one generation invocation: whether any image API is
configured (line 112), the provider call outcome, and whether the book_pages
insert succeeds (its error is only logged, lines 149-151). -/
structure GenEnv where
  apiConfigured : Bool
  provider : ProviderResult
  insertOk : Bool
deriving DecidableEq, Repr

/-- HTTP response of one generation invocation, one constructor per return site
of the serve handler. -/
inductive GenResponse where
  | unauthorized
  | missingJobId
  | jobNotFound
  | alreadyFinished
  | allProcessed (completedCount failedCount : Nat)
  | ok (promptIndex : Nat) (nextPromptIndex : Option Nat) (imageGenerated : Bool)
  | serverError (msg : String)
deriving DecidableEq, Repr

/-- HTTP status code of each generation response, from the source's
`new Response(..., { status })` literals. -/
def genHttpStatus : GenResponse → Nat
  | .unauthorized => 401
  | .missingJobId => 400
  | .jobNotFound => 404
  | .alreadyFinished => 200
  | .allProcessed _ _ => 200
  | .ok _ _ _ => 200
  | .serverError _ => 500

/-- Result of one generation invocation: the database afterwards, the prompt
index of the continuation scheduled through EdgeRuntime.waitUntil (none when no
continuation was scheduled), and the HTTP response. -/
structure GenOutcome where
  db : GenDb
  scheduledNext : Option Nat
  response : GenResponse
deriving DecidableEq, Repr

/-- The book_pages row inserted at lines 140-147: book_id/user_id from the job,
the computed page_number, the prompt, the provider url, art_style "line_art"
(id is database-generated and irrelevant here). -/
def mkGenPage (job : GenJob) (num : Int) (prompt url : String) : Page :=
  { id := ""
    book_id := job.book_id
    user_id := job.user_id
    page_number := num
    prompt := prompt
    image_url := url
    art_style := "line_art" }

/-- One invocation of the process-generation-job serve handler (lines 28-221),
translated branch by branch.  The outer catch (lines 212-221) returns a 500
response and performs no further database write, which is why the
`apiConfigured = false` throw leaves the job row as it stood at the throw. -/
def processGenerationJob (req : GenRequest) (env : GenEnv) (db : GenDb) : GenOutcome :=
  if ¬ req.hasJobId then
    { db := db, scheduledNext := none, response := .missingJobId }
  else
    let promptIndex := req.promptIndex.getD 0
    match db.job with
    | none => { db := db, scheduledNext := none, response := .jobNotFound }
    | some job =>
      if job.status = .completed ∨ job.status = .failed then
        { db := db, scheduledNext := none, response := .alreadyFinished }
      else
        let prompts := job.prompts
        -- first call on a pending job: mark processing (lines 64-69)
        let job1 := if promptIndex = 0 ∧ job.status = .pending then
                      { job with status := .processing } else job
        let db1 : GenDb := { db with job := some job1 }
        if prompts.length ≤ promptIndex then
          -- all prompts processed: mark completed (lines 72-90)
          let job2 := { job1 with status := .completed, completed_at := true }
          { db := { db1 with job := some job2 }
            scheduledNext := none
            response := .allProcessed job.completed_count job.failed_count }
        else
          let prompt := prompts.getD promptIndex ""
          let currentPageNumber := nextPageNumber (bookPages db1.pages job.book_id)
          if ¬ env.apiConfigured then
            -- throw new Error("No image generation API configured"), line 113:
            -- propagates to the outer catch, no job write
            { db := db1
              scheduledNext := none
              response := .serverError "No image generation API configured" }
          else
            let imageUrl : Option String :=
              match env.provider with
              | .artifact u => some u
              | .noArtifact => none
              | .error _ => none
            let failed : Bool :=
              match env.provider with
              | .error _ => true
              | _ => false
            let newCompletedCount :=
              if failed then job.completed_count else job.completed_count + 1
            let newFailedCount :=
              if failed then job.failed_count + 1 else job.failed_count
            -- save the page if successful (lines 139-152)
            let db2 : GenDb :=
              match imageUrl, failed with
              | some url, false =>
                if env.insertOk then
                  { db1 with pages :=
                      db1.pages ++ [mkGenPage job currentPageNumber prompt url] }
                else db1
              | _, _ => db1
            -- update job progress (lines 155-161)
            let db3 : GenDb :=
              { db2 with job := some { job1 with
                  completed_count := newCompletedCount
                  failed_count := newFailedCount } }
            let nextPromptIndex := promptIndex + 1
            if nextPromptIndex < prompts.length then
              { db := db3
                scheduledNext := some nextPromptIndex
                response := .ok promptIndex (some nextPromptIndex) (!failed) }
            else
              -- last prompt: mark completed (lines 190-199)
              let job3 := { job1 with
                  completed_count := newCompletedCount
                  failed_count := newFailedCount
                  status := .completed
                  completed_at := true }
              { db := { db3 with job := some job3 }
                scheduledNext := none
                response := .ok promptIndex none (!failed) }

/-- Environment of a fully successful generation invocation: an API is
configured, the provider resolves with the given artifact url, and the
book_pages insert succeeds. -/
def successEnv (url : String) : GenEnv :=
  { apiConfigured := true, provider := .artifact url, insertOk := true }

/-- The self-invocation chain of the generation pipeline: run the invocation
for `idx`, then follow the continuation scheduled through
EdgeRuntime.waitUntil, each invocation succeeding with artifact `urls i`.
`fuel` bounds the chain length (one prompt per invocation, so the prompt
count suffices). -/
def runGenChain (urls : Nat → String) (db : GenDb) (idx : Nat) : Nat → GenDb
  | 0 => db
  | fuel + 1 =>
    let out := processGenerationJob { hasJobId := true, promptIndex := some idx }
      (successEnv (urls idx)) db
    match out.scheduledNext with
    | none => out.db
    | some n => runGenChain urls out.db n fuel

/-- The pages appended by `r` consecutive successful generation invocations
starting at prompt index `i`, when the book's max page number is `base`:
each insert lands at the previous maximum plus one. -/
def genPages (job : GenJob) (ps : List String) (urls : Nat → String)
    (base : Int) (i : Nat) : Nat → List Page
  | 0 => []
  | r + 1 =>
    mkGenPage job (base + 1) (ps.getD i "") (urls i)
      :: genPages job ps urls (base + 1) (i + 1) r

/-- A row of public.export_jobs (migration 20260126): counters, cursor, result
url, error message.  `completed_at` records whether the timestamp was set. -/
structure ExportJob where
  user_id : String
  book_id : String
  book_title : String
  status : JobStatus
  total_pages : Nat
  processed_pages : Nat
  current_offset : Nat
  download_url : Option String
  error_message : Option String
  completed_at : Bool
deriving DecidableEq, Repr

/-- Database and storage state visible to one export-processor invocation:
the export_jobs row for the requested job id, the book_pages table, the staged
temp objects of this job (filenames under export-temp/jobId/), and the
uploaded final archives (paths under exports/). -/
structure ExportDb where
  job : Option ExportJob
  pages : List Page
  staged : List String
  archives : List String
deriving DecidableEq, Repr

/-- Observable actions of one export invocation, in execution order:
staging upload, persisted progress write, self-invocation, archive upload,
temp-object removal, and terminal status writes. -/
inductive ExportEvent where
  | staged (filename : String)
  | progress (offset processed : Nat)
  | scheduled
  | archived (path : String)
  | removed (filename : String)
  | completedSet
  | failedSet (msg : String)
deriving DecidableEq, Repr

/-- Environment oracle for one export invocation: which of the fallible
external calls succeed, which staged objects' removal fails (supabase-js v2
storage remove reports failure through the returned error value, which the
cleanup loop discards — it never throws), and the Date.now() value used in
the archive path. -/
structure ExportEnv where
  pagesQueryOk : Bool
  fetchOk : Bool
  uploadOk : Bool
  listOk : Bool
  zipUploadOk : Bool
  removeFails : String → Bool
  timestamp : Nat

/-- Result of one export invocation: state afterwards, ordered event log, and
the message of the exception handled by the enclosing catch, if one was
thrown during the attempt. -/
structure ExportOutcome where
  db : ExportDb
  events : List ExportEvent
  caught : Option String
deriving DecidableEq, Repr

/-- The failed-status write performed by the catch blocks of processNextBatch
(lines 292-300) and finalizeExport (lines 384-392): status, error_message,
completed_at. -/
def setJobFailed (job : ExportJob) (msg : String) : ExportJob :=
  { job with status := .failed, error_message := some msg, completed_at := true }

/-- Whether `sep` occurs at the head of `l`. -/
def startsWithChars : List Char → List Char → Bool
  | [], _ => true
  | _ :: _, [] => false
  | a :: as, b :: bs => a = b && startsWithChars as bs

/-- Split `l` at the first occurrence of `sep`, returning the parts before and
after; none when `sep` does not occur. -/
def splitFirst (sep : List Char) : List Char → Option (List Char × List Char)
  | [] => none
  | c :: cs =>
    if startsWithChars sep (c :: cs) then some ([], (c :: cs).drop sep.length)
    else
      match splitFirst sep cs with
      | some (a, b) => some (c :: a, b)
      | none => none

/-- JavaScript regex word character: [A-Za-z0-9_]. -/
def isWordChar (c : Char) : Bool :=
  c.isAlphanum || c = '_'

/-- The regex match of export-book-zip lines 257-259:
`image_url.match(/^data:image\/(\w+);base64,(.+)$/)`, returning the extension
group and the base64 payload group when the url is an inline data url. -/
def parseDataUrl (s : String) : Option (String × String) :=
  let cs := s.toList
  let head := "data:image/".toList
  if startsWithChars head cs then
    match splitFirst ";base64,".toList (cs.drop head.length) with
    | some (extCs, dataCs) =>
      if extCs ≠ [] ∧ extCs.all isWordChar ∧ dataCs ≠ [] then
        some (String.mk extCs, String.mk dataCs)
      else none
    | none => none
  else none

/-- The padding `String(page_number).padStart(4, "0")` from line 266. -/
def padStart4 (s : String) : String :=
  if s.length < 4 then String.mk (List.replicate (4 - s.length) '0') ++ s else s

/-- Characters before the first '-': the head segment of a split on "-". -/
def takeUntilDash : List Char → List Char
  | [] => []
  | c :: cs => if c = '-' then [] else c :: takeUntilDash cs

/-- The short id `page.id.split("-")[0]` from line 265: the segment before the first '-'
(the whole string when no '-' occurs). -/
def shortIdOf (id : String) : String :=
  String.mk (takeUntilDash id.toList)

/-- The deterministic staged filename of line 266:
zero-padded page_number, underscore, short id, ".png". -/
def pageFilename (p : Page) : String :=
  padStart4 (toString p.page_number) ++ "_" ++ shortIdOf p.id ++ ".png"

/-- Storage upload with `upsert: true`: same key overwrites, no duplicate. -/
def putObject (f : String) (l : List String) : List String :=
  if f ∈ l then l else l ++ [f]

/-- Insertion step of the `order("page_number", ascending)` read. -/
def insertPageSorted (p : Page) : List Page → List Page
  | [] => [p]
  | q :: qs =>
    if p.page_number ≤ q.page_number then p :: q :: qs else q :: insertPageSorted p qs

/-- The ordered page list backing the cursor read (lines 222-227):
book pages sorted by page_number ascending. -/
def sortPages : List Page → List Page
  | [] => []
  | p :: ps => insertPageSorted p (sortPages ps)

/-- finalizeExport (lines 304-394): list staged objects, fail on none, build
and upload the archive, mark the job completed with the public url, then
best-effort remove the staged objects.  Each remove call reports failure in
its returned result, which the loop discards (lines 377-381), so a failed
removal merely leaves the object behind: the completed status persisted just
before is never revisited. -/
def finalizeExport (env : ExportEnv) (job : ExportJob) (db : ExportDb) : ExportOutcome :=
  if ¬ env.listOk then
    { db := { db with job := some (setJobFailed job "list error") }
      events := [.failedSet "list error"]
      caught := some "list error" }
  else if db.staged = [] then
    { db := { db with job := some (setJobFailed job "No files to archive") }
      events := [.failedSet "No files to archive"]
      caught := some "No files to archive" }
  else if ¬ env.zipUploadOk then
    { db := { db with job := some (setJobFailed job "zip upload error") }
      events := [.failedSet "zip upload error"]
      caught := some "zip upload error" }
  else
    let zipPath := "exports/" ++ job.user_id ++ "/" ++ job.book_title ++ "_"
      ++ toString env.timestamp ++ ".zip"
    let job1 := { job with
        status := .completed
        download_url := some zipPath
        completed_at := true }
    { db := { db with
        job := some job1
        staged := db.staged.filter (fun f => env.removeFails f)
        archives := db.archives ++ [zipPath] }
      events := [.archived zipPath, .completedSet]
        ++ (db.staged.filter (fun f => ! env.removeFails f)).map .removed
      caught := none }

/-- processNextBatch (lines 196-302): guards for missing/terminal job, the
single-page cursor read, base64 decode and staging upload, the immediate
progress write, the fire-and-forget self-invocation, and the catch that
writes status failed on any thrown error. -/
def processNextBatch (env : ExportEnv) (db : ExportDb) : ExportOutcome :=
  match db.job with
  | none => { db := db, events := [], caught := none }
  | some job =>
    if job.status = .completed ∨ job.status = .failed then
      { db := db, events := [], caught := none }
    else if ¬ env.pagesQueryOk then
      { db := { db with job := some (setJobFailed job "pages query error") }
        events := [.failedSet "pages query error"]
        caught := some "pages query error" }
    else
      let ordered := sortPages (bookPages db.pages job.book_id)
      match (ordered.drop job.current_offset).take 1 with
      | [] => finalizeExport env job db
      | page :: _ =>
        if ¬ env.fetchOk then
          { db := { db with job := some (setJobFailed job "page fetch error") }
            events := [.failedSet "page fetch error"]
            caught := some "page fetch error" }
        else
          match parseDataUrl page.image_url with
          | some _ =>
            if ¬ env.uploadOk then
              { db := { db with job := some (setJobFailed job "upload error") }
                events := [.failedSet "upload error"]
                caught := some "upload error" }
            else
              let filename := pageFilename page
              let newOffset := job.current_offset + 1
              let newProcessed := job.processed_pages + 1
              let job1 := { job with
                  current_offset := newOffset
                  processed_pages := newProcessed }
              { db := { db with
                  job := some job1
                  staged := putObject filename db.staged }
                events := [.staged filename,
                           .progress newOffset newProcessed, .scheduled]
                caught := none }
          | none =>
            -- no data-url match: the loop body is skipped entirely, yet the
            -- self-invocation after the loop still fires
            { db := db, events := [.scheduled], caught := none }

/-- The title sanitizer `/[^a-z0-9]/gi` to "_" then `.substring(0, 30)` from lines 107-109. -/
def sanitizeTitle (t : String) : String :=
  String.mk ((t.toList.map (fun c => if c.isAlphanum then c else '_')).take 30)

/-- The export_jobs row inserted by the external-call branch (lines 111-123):
status processing, total_pages = count of the book's pages, counters zero. -/
def createExportJob (userId bookId bookTitle : String) (pages : List Page) : ExportJob :=
  { user_id := userId
    book_id := bookId
    book_title := sanitizeTitle bookTitle
    status := .processing
    total_pages := (bookPages pages bookId).length
    processed_pages := 0
    current_offset := 0
    download_url := none
    error_message := none
    completed_at := false }

/-- A sequence of export-processor invocations, threading the state. -/
def runExport (envs : List ExportEnv) (db : ExportDb) : ExportDb :=
  envs.foldl (fun d e => (processNextBatch e d).db) db

/-- The export-job counter invariant: processed_pages mirrors current_offset,
total_pages is the book's page count, and processed never exceeds total. -/
def exportInv (db : ExportDb) : Prop :=
  match db.job with
  | none => True
  | some j =>
    j.processed_pages = j.current_offset ∧
    j.total_pages = (bookPages db.pages j.book_id).length ∧
    j.processed_pages ≤ j.total_pages

/-- processed_pages of the job row, 0 when absent. -/
def jobProcessed (db : ExportDb) : Nat :=
  match db.job with
  | none => 0
  | some j => j.processed_pages

/-- The predicate `status in ['pending','processing']` from ExportAllButton line 117. -/
def isActiveJob (j : ExportJob) : Bool :=
  j.status = .pending || j.status = .processing

/-- The client dedup query (ExportAllButton lines 113-120): latest export job
for this book in a non-terminal state, if any. -/
def findActiveJob (jobs : List (String × ExportJob)) (bookId : String) :
    Option (String × ExportJob) :=
  (jobs.filter (fun e => e.2.book_id = bookId && isActiveJob e.2)).head?

/-- What handleExportAll did to the export_jobs table. -/
inductive ClientResult where
  | resumed (jobId : String)
  | created (jobId : String)
  | noPages
deriving DecidableEq, Repr

/-- handleExportAll (ExportAllButton lines 104-181): when a non-terminal job
for the book exists, attach to it (return its id, nudge the backend) without
inserting; otherwise call the export entry point, which creates a fresh job
row when the book has pages. -/
def handleExportAll (jobs : List (String × ExportJob))
    (bookId bookTitle userId newId : String) (pages : List Page) :
    List (String × ExportJob) × ClientResult :=
  match findActiveJob jobs bookId with
  | some e => (jobs, .resumed e.1)
  | none =>
    if (bookPages pages bookId).length = 0 then (jobs, .noPages)
    else (jobs ++ [(newId, createExportJob userId bookId bookTitle pages)], .created newId)

/-- A generation invocation carrying jobId and an explicit promptIndex. -/
def genInvoke (k : Nat) (env : GenEnv) (db : GenDb) : GenOutcome :=
  processGenerationJob { hasJobId := true, promptIndex := some k } env db

/-- The full process-generation-job endpoint: the service-role authorization
gate of lines 17-24 runs before the request body is read.  `serviceAuth` is
whether the Authorization header equals Bearer of the service-role key; any
other caller — the client's functions.invoke carries the user/anon token —
is rejected with 401 before any database access. -/
def generationEndpoint (serviceAuth : Bool) (req : GenRequest) (env : GenEnv)
    (db : GenDb) : GenOutcome :=
  if ¬ serviceAuth then
    { db := db, scheduledNext := none, response := .unauthorized }
  else
    processGenerationJob req env db

/-- Forward order on export-job statuses: pending → processing →
{completed, failed}, with no transition out of a terminal status. -/
def statusLe (a b : JobStatus) : Prop :=
  a = b ∨ a = .pending ∨ (a = .processing ∧ (b = .completed ∨ b = .failed))

/-- completed_count of the generation job row, 0 when absent. -/
def genCompleted (db : GenDb) : Nat :=
  match db.job with
  | none => 0
  | some j => j.completed_count

/-- failed_count of the generation job row, 0 when absent. -/
def genFailed (db : GenDb) : Nat :=
  match db.job with
  | none => 0
  | some j => j.failed_count

/-- status of the generation job row, if present. -/
def genStatus? (db : GenDb) : Option JobStatus :=
  db.job.map (fun j => j.status)

/-- error_message of the generation job row, if present. -/
def genErrMsg (db : GenDb) : Option String :=
  db.job.bind (fun j => j.error_message)

/-- Sample two-prompt pending generation job used by concrete witnesses. -/
def sampleJob2 : GenJob :=
  { book_id := "b", user_id := "u", status := .pending, prompts := ["a", "b"]
    completed_count := 0, failed_count := 0, error_message := none, completed_at := false }

/-- Sample generation database holding sampleJob2 and no pages. -/
def sampleGenDb : GenDb :=
  { job := some sampleJob2, pages := [] }

/-! ### Helper lemmas -/

/-- The JavaScript `|| 0` in the next-position computation is the identity,
so the next position is always the stored maximum (default 0) plus one. -/
theorem nextPageNumber_eq (l : List Page) :
    nextPageNumber l = (maxPageNum? l).getD 0 + 1 := by
  unfold nextPageNumber jsOrZero
  cases h : maxPageNum? l with
  | none => simp
  | some m =>
    by_cases hm : m = 0 <;> simp [hm]

/-- Maximum page number after appending one page. -/
theorem maxPageNum?_append (l : List Page) (p : Page) :
    maxPageNum? (l ++ [p])
      = some (match maxPageNum? l with
              | none => p.page_number
              | some m => max m p.page_number) := by
  induction l with
  | nil => simp [maxPageNum?]
  | cons q t ih =>
    simp only [List.cons_append, maxPageNum?, List.append_eq]
    rw [ih]
    cases h : maxPageNum? t with
    | none => simp [h]
    | some m => simp [h, max_assoc]

/-- Appending a page at the freshly computed next position bumps the stored
maximum by exactly one. -/
theorem maxPageNum?_getD_append_next (l : List Page) (p : Page)
    (h : p.page_number = (maxPageNum? l).getD 0 + 1) :
    (maxPageNum? (l ++ [p])).getD 0 = (maxPageNum? l).getD 0 + 1 := by
  rw [maxPageNum?_append]
  cases hm : maxPageNum? l with
  | none =>
    rw [hm] at h
    simp [h]
  | some m =>
    rw [hm] at h
    simp only [Option.getD_some] at h
    simp only [hm, Option.getD_some]
    rw [h, max_eq_right (by omega)]

/-- Filtering by book distributes over append. -/
theorem bookPages_append (l l' : List Page) (b : String) :
    bookPages (l ++ l') b = bookPages l b ++ bookPages l' b := by
  simp [bookPages, List.filter_append]

/-- A single page of the right book survives the filter. -/
theorem bookPages_single (p : Page) (b : String) (h : p.book_id = b) :
    bookPages [p] b = [p] := by
  simp [bookPages, h]

/-- One generation invocation whose provider call resolves with an artifact
and whose insert succeeds: the page is appended at the computed position,
completed_count is incremented, and a continuation is scheduled exactly when
another prompt remains. -/
theorem genStep_artifact (db : GenDb) (job : GenJob) (k : Nat) (u : String) (env : GenEnv)
    (hj : db.job = some job)
    (hs : job.status ≠ .completed) (hs' : job.status ≠ .failed)
    (hk : k < job.prompts.length)
    (ha : env.apiConfigured = true)
    (hp : env.provider = .artifact u)
    (hi : env.insertOk = true) :
    genInvoke k env db =
      (let job1 := if k = 0 ∧ job.status = .pending then
                     { job with status := .processing } else job
       let pg := mkGenPage job (nextPageNumber (bookPages db.pages job.book_id))
                   (job.prompts.getD k "") u
       if k + 1 < job.prompts.length then
         { db := { job := some { job1 with
                     completed_count := job.completed_count + 1
                     failed_count := job.failed_count }
                   pages := db.pages ++ [pg] }
           scheduledNext := some (k + 1)
           response := .ok k (some (k + 1)) true }
       else
         { db := { job := some { job1 with
                     completed_count := job.completed_count + 1
                     failed_count := job.failed_count
                     status := .completed
                     completed_at := true }
                   pages := db.pages ++ [pg] }
           scheduledNext := none
           response := .ok k none true }) := by
  have hk' : ¬ job.prompts.length ≤ k := by omega
  have hne : job.prompts ≠ [] := by
    intro h
    rw [h] at hk
    simp at hk
  by_cases hflip : k = 0 ∧ job.status = .pending <;>
    by_cases hnext : k + 1 < job.prompts.length <;>
    simp [genInvoke, processGenerationJob, hj, hp, ha, hi, hk', hs, hs', hflip, hnext, hne]

/-- One generation invocation whose provider call resolves without a usable
artifact (Lovable response with no image): the catch is not entered, so the
source's `failed` stays false, completed_count is incremented and no page is
inserted. -/
theorem genStep_noArtifact (db : GenDb) (job : GenJob) (k : Nat) (env : GenEnv)
    (hj : db.job = some job)
    (hs : job.status ≠ .completed) (hs' : job.status ≠ .failed)
    (hk : k < job.prompts.length)
    (ha : env.apiConfigured = true)
    (hp : env.provider = .noArtifact) :
    genInvoke k env db =
      (let job1 := if k = 0 ∧ job.status = .pending then
                     { job with status := .processing } else job
       if k + 1 < job.prompts.length then
         { db := { job := some { job1 with
                     completed_count := job.completed_count + 1
                     failed_count := job.failed_count }
                   pages := db.pages }
           scheduledNext := some (k + 1)
           response := .ok k (some (k + 1)) true }
       else
         { db := { job := some { job1 with
                     completed_count := job.completed_count + 1
                     failed_count := job.failed_count
                     status := .completed
                     completed_at := true }
                   pages := db.pages }
           scheduledNext := none
           response := .ok k none true }) := by
  have hk' : ¬ job.prompts.length ≤ k := by omega
  have hne : job.prompts ≠ [] := by
    intro h
    rw [h] at hk
    simp at hk
  by_cases hflip : k = 0 ∧ job.status = .pending <;>
    by_cases hnext : k + 1 < job.prompts.length <;>
    simp [genInvoke, processGenerationJob, hj, hp, ha, hk', hs, hs', hflip, hnext, hne]

/-- One generation invocation whose provider call throws (any HTTP error
status, rate-limit and quota included): the inner catch records a per-unit
failure, failed_count is incremented, no page is inserted, the job is never
marked failed, and the chain continues whenever prompts remain. -/
theorem genStep_error (db : GenDb) (job : GenJob) (k s : Nat) (env : GenEnv)
    (hj : db.job = some job)
    (hs : job.status ≠ .completed) (hs' : job.status ≠ .failed)
    (hk : k < job.prompts.length)
    (ha : env.apiConfigured = true)
    (hp : env.provider = .error s) :
    genInvoke k env db =
      (let job1 := if k = 0 ∧ job.status = .pending then
                     { job with status := .processing } else job
       if k + 1 < job.prompts.length then
         { db := { job := some { job1 with
                     completed_count := job.completed_count
                     failed_count := job.failed_count + 1 }
                   pages := db.pages }
           scheduledNext := some (k + 1)
           response := .ok k (some (k + 1)) false }
       else
         { db := { job := some { job1 with
                     completed_count := job.completed_count
                     failed_count := job.failed_count + 1
                     status := .completed
                     completed_at := true }
                   pages := db.pages }
           scheduledNext := none
           response := .ok k none false }) := by
  have hk' : ¬ job.prompts.length ≤ k := by omega
  have hne : job.prompts ≠ [] := by
    intro h
    rw [h] at hk
    simp at hk
  by_cases hflip : k = 0 ∧ job.status = .pending <;>
    by_cases hnext : k + 1 < job.prompts.length <;>
    simp [genInvoke, processGenerationJob, hj, hp, ha, hk', hs, hs', hflip, hnext, hne]

/-! ### C1 -/

/-- C1 counterexample: a pending two-prompt job whose provider call for prompt
index 0 throws with rate-limit status 429.  The invocation schedules a
continuation for index 1, leaves the status processing (not failed), and
writes no error message — contradicting the claim that a fatal provider
error fails the job and stops the chain. -/
theorem c1_fatal_provider_error_cex :
    (genInvoke 0 { apiConfigured := true, provider := .error 429, insertOk := true }
        sampleGenDb).scheduledNext = some 1
    ∧ genStatus? (genInvoke 0
        { apiConfigured := true, provider := .error 429, insertOk := true }
        sampleGenDb).db = some .processing
    ∧ genErrMsg (genInvoke 0
        { apiConfigured := true, provider := .error 429, insertOk := true }
        sampleGenDb).db = none := by
  decide

/-- C1 (amended): a provider error of any status — rate-limit 429 and
quota/payment 402 included — is recorded as a per-unit failure: failed_count
increases by one, completed_count and the pages are untouched, the job is not
marked failed and no error message is written, and a continuation for index
k+1 is scheduled exactly when k+1 is still a valid prompt index. -/
theorem c1_provider_error_is_per_unit (env : GenEnv) (db : GenDb) (job : GenJob) (k s : Nat)
    (hj : db.job = some job)
    (hs : job.status ≠ .completed) (hs' : job.status ≠ .failed)
    (hk : k < job.prompts.length)
    (ha : env.apiConfigured = true)
    (hp : env.provider = .error s) :
    genFailed (genInvoke k env db).db = job.failed_count + 1
    ∧ genCompleted (genInvoke k env db).db = job.completed_count
    ∧ genStatus? (genInvoke k env db).db ≠ some .failed
    ∧ genErrMsg (genInvoke k env db).db = job.error_message
    ∧ (genInvoke k env db).db.pages = db.pages
    ∧ (genInvoke k env db).scheduledNext
        = (if k + 1 < job.prompts.length then some (k + 1) else none) := by
  rw [genStep_error db job k s env hj hs hs' hk ha hp]
  have hsp : (if k = 0 ∧ job.status = .pending then
      { job with status := JobStatus.processing } else job).status ≠ .failed := by
    split <;> simp_all
  have hse : (if k = 0 ∧ job.status = .pending then
      { job with status := JobStatus.processing } else job).error_message
      = job.error_message := by
    split <;> rfl
  by_cases hnext : k + 1 < job.prompts.length <;>
    simp [hnext, genFailed, genCompleted, genStatus?, genErrMsg, hsp, hse]

/-- Witness for C1 (amended) at a concrete pending two-prompt job and a 429
provider error on prompt 0. -/
theorem c1_provider_error_is_per_unit_witness :
    genFailed (genInvoke 0
      { apiConfigured := true, provider := .error 429, insertOk := true }
      sampleGenDb).db = 1 := by
  have h := c1_provider_error_is_per_unit
    { apiConfigured := true, provider := .error 429, insertOk := true }
    sampleGenDb sampleJob2 0 429 rfl (by decide) (by decide) (by decide) rfl rfl
  simpa using h.1

/-! ### C2 -/

/-- C2 counterexample: a processing one-prompt job whose provider call
resolves without a usable artifact.  completed_count is incremented to 1 and
failed_count stays 0 — contradicting the claim that this case increments
failed_count. -/
theorem c2_no_artifact_counts_cex :
    genCompleted (genInvoke 0
      { apiConfigured := true, provider := .noArtifact, insertOk := true }
      sampleGenDb).db = 1
    ∧ genFailed (genInvoke 0
      { apiConfigured := true, provider := .noArtifact, insertOk := true }
      sampleGenDb).db = 0
    ∧ (genInvoke 0
      { apiConfigured := true, provider := .noArtifact, insertOk := true }
      sampleGenDb).db.pages = [] := by
  decide

/-- C2 (amended): on provider success with a usable artifact (insert
succeeding) exactly one page is appended at the computed position and
completed_count increases by one; on provider success with no usable
artifact, no page is inserted but completed_count (not failed_count)
increases by one; on a provider error, failed_count increases by one and no
page is inserted. -/
theorem c2_unit_accounting (env : GenEnv) (db : GenDb) (job : GenJob) (k : Nat)
    (hj : db.job = some job)
    (hs : job.status ≠ .completed) (hs' : job.status ≠ .failed)
    (hk : k < job.prompts.length)
    (ha : env.apiConfigured = true)
    (hins : env.insertOk = true) :
    (∀ u, env.provider = .artifact u →
      (genInvoke k env db).db.pages
        = db.pages ++ [mkGenPage job (nextPageNumber (bookPages db.pages job.book_id))
            (job.prompts.getD k "") u]
      ∧ genCompleted (genInvoke k env db).db = job.completed_count + 1
      ∧ genFailed (genInvoke k env db).db = job.failed_count)
    ∧ (env.provider = .noArtifact →
      (genInvoke k env db).db.pages = db.pages
      ∧ genCompleted (genInvoke k env db).db = job.completed_count + 1
      ∧ genFailed (genInvoke k env db).db = job.failed_count)
    ∧ (∀ s, env.provider = .error s →
      (genInvoke k env db).db.pages = db.pages
      ∧ genCompleted (genInvoke k env db).db = job.completed_count
      ∧ genFailed (genInvoke k env db).db = job.failed_count + 1) := by
  refine ⟨fun u hp => ?_, fun hp => ?_, fun s hp => ?_⟩
  · rw [genStep_artifact db job k u env hj hs hs' hk ha hp hins]
    by_cases hnext : k + 1 < job.prompts.length <;>
      simp [hnext, genCompleted, genFailed]
  · rw [genStep_noArtifact db job k env hj hs hs' hk ha hp]
    by_cases hnext : k + 1 < job.prompts.length <;>
      simp [hnext, genCompleted, genFailed]
  · rw [genStep_error db job k s env hj hs hs' hk ha hp]
    by_cases hnext : k + 1 < job.prompts.length <;>
      simp [hnext, genCompleted, genFailed]

/-- Witness for C2 (amended) at a concrete job with a successful artifact on
prompt 0. -/
theorem c2_unit_accounting_witness :
    (genInvoke 0 { apiConfigured := true, provider := .artifact "img", insertOk := true }
      sampleGenDb).db.pages
      = [mkGenPage sampleJob2 1 "a" "img"]
    ∧ genCompleted (genInvoke 0
      { apiConfigured := true, provider := .artifact "img", insertOk := true }
      sampleGenDb).db = 1 := by
  have h := c2_unit_accounting
    { apiConfigured := true, provider := .artifact "img", insertOk := true }
    sampleGenDb sampleJob2 0 rfl (by decide) (by decide) (by decide) rfl rfl
  have h1 := h.1 "img" rfl
  refine ⟨?_, by simpa using h1.2.1⟩
  have := h1.1
  simpa [sampleGenDb, sampleJob2, nextPageNumber, maxPageNum?, bookPages, jsOrZero] using this

/-! ### C10 -/

/-- C10 counterexample: the client's submit/resume invoke (functions.invoke
with only jobId) carries the user session token, not the service-role key,
so the gate of lines 17-24 rejects it with 401 before the promptIndex
default is even read: it neither restarts processing at prompt 0 nor inserts
a page — the database is untouched and nothing is scheduled. -/
theorem c10_client_resume_rejected_cex :
    generationEndpoint false { hasJobId := true, promptIndex := none }
      { apiConfigured := true, provider := .artifact "img", insertOk := true }
      sampleGenDb
      = { db := sampleGenDb, scheduledNext := none, response := .unauthorized }
    ∧ genHttpStatus GenResponse.unauthorized = 401 := by
  decide

/-- C10 (amended): the endpoint treats an omitted promptIndex exactly as
promptIndex = 0, so an authorized (service-role) re-trigger of a non-terminal
job with only its job id restarts processing at prompt 0 and, on provider
success, inserts an additional page for prompt 0 at the freshly computed
position; the client's submit/resume call, lacking the service-role
credential, is rejected with 401 and mutates nothing. -/
theorem c10_default_prompt_index_gated :
    (∀ (hb : Bool) (env : GenEnv) (db : GenDb),
      generationEndpoint true { hasJobId := hb, promptIndex := none } env db
        = generationEndpoint true { hasJobId := hb, promptIndex := some 0 } env db)
    ∧ (∀ (env : GenEnv) (db : GenDb) (job : GenJob) (u : String),
      db.job = some job → job.status ≠ .completed → job.status ≠ .failed →
      0 < job.prompts.length → env.apiConfigured = true →
      env.provider = .artifact u → env.insertOk = true →
      (generationEndpoint true { hasJobId := true, promptIndex := none } env db).response
          = .ok 0 (if 0 + 1 < job.prompts.length then some (0 + 1) else none) true
      ∧ (generationEndpoint true { hasJobId := true, promptIndex := none } env db).db.pages
          = db.pages ++ [mkGenPage job (nextPageNumber (bookPages db.pages job.book_id))
              (job.prompts.getD 0 "") u])
    ∧ (∀ (req : GenRequest) (env : GenEnv) (db : GenDb),
      generationEndpoint false req env db
        = { db := db, scheduledNext := none, response := .unauthorized }) := by
  refine ⟨fun hb env db => rfl, ?_, fun req env db => rfl⟩
  intro env db job u hj hs hs' hk ha hp hi
  have heq : generationEndpoint true { hasJobId := true, promptIndex := none } env db
      = genInvoke 0 env db := rfl
  rw [heq, genStep_artifact db job 0 u env hj hs hs' hk ha hp hi]
  by_cases hnext : 0 + 1 < job.prompts.length <;> simp [hnext]

/-- Witness for C10 (amended) at a concrete authorized re-trigger with a
successful provider call. -/
theorem c10_default_prompt_index_gated_witness :
    (generationEndpoint true { hasJobId := true, promptIndex := none }
      { apiConfigured := true, provider := .artifact "img", insertOk := true }
      sampleGenDb).response = .ok 0 (some 1) true := by
  have h := (c10_default_prompt_index_gated.2.1
    { apiConfigured := true, provider := .artifact "img", insertOk := true }
    sampleGenDb sampleJob2 "img" rfl (by decide) (by decide) (by decide) rfl rfl rfl).1
  simpa using h

/-! ### C4 -/

/-- C4 counterexample: a pending job invoked at index 0 with no image API
configured.  The guard at the top flips it to processing, the configuration
check throws, and the outer catch returns a 500 server-error response without
writing any terminal status or error message: the job is left in processing. -/
theorem c4_generation_exception_leaves_processing_cex :
    genStatus? (genInvoke 0
      { apiConfigured := false, provider := .noArtifact, insertOk := true }
      sampleGenDb).db = some .processing
    ∧ (genInvoke 0
      { apiConfigured := false, provider := .noArtifact, insertOk := true }
      sampleGenDb).response = .serverError "No image generation API configured"
    ∧ genErrMsg (genInvoke 0
      { apiConfigured := false, provider := .noArtifact, insertOk := true }
      sampleGenDb).db = none := by
  decide

/-- C4 (amended): in the export processor, every exception thrown during the
unit-of-work attempt is caught and a terminal failed status with the
exception's message (and completed_at) is written to the job row before the
invocation returns.  (The generation processor does not have this property:
its outer catch returns a 500 response without a job write, see the
counterexample.) -/
theorem c4_export_exception_writes_failed (env : ExportEnv) (db : ExportDb) (msg : String)
    (h : (processNextBatch env db).caught = some msg) :
    ∃ j, (processNextBatch env db).db.job = some j
      ∧ j.status = .failed ∧ j.error_message = some msg ∧ j.completed_at = true := by
  cases hdb : db.job with
  | none => simp [processNextBatch, hdb] at h
  | some job =>
    by_cases hterm : job.status = .completed ∨ job.status = .failed
    · simp [processNextBatch, hdb, hterm] at h
    · by_cases hq : env.pagesQueryOk
      case neg =>
        simp_all [processNextBatch, setJobFailed]
      case pos =>
        cases hbatch : List.take 1 (List.drop job.current_offset
            (sortPages (bookPages db.pages job.book_id))) with
        | nil =>
          have hred : processNextBatch env db = finalizeExport env job db := by
            simp [processNextBatch, hdb, hterm, hq, hbatch]
          rw [hred] at h ⊢
          clear hbatch
          by_cases hl : env.listOk
          case neg => simp_all [finalizeExport, setJobFailed]
          case pos =>
            by_cases hst : db.staged = []
            · simp_all [finalizeExport, setJobFailed]
            · by_cases hz : env.zipUploadOk
              case neg => simp_all [finalizeExport, setJobFailed]
              case pos => simp_all [finalizeExport]
        | cons page rest =>
          by_cases hf : env.fetchOk
          case neg =>
            have hred : processNextBatch env db
                = { db := { db with job := some (setJobFailed job "page fetch error") }
                    events := [.failedSet "page fetch error"]
                    caught := some "page fetch error" } := by
              simp [processNextBatch, hdb, hterm, hq, hbatch, hf]
            rw [hred] at h ⊢
            simp_all [setJobFailed]
          case pos =>
            cases hparse : parseDataUrl page.image_url with
            | none =>
              have hred : processNextBatch env db
                  = { db := db, events := [.scheduled], caught := none } := by
                simp [processNextBatch, hdb, hterm, hq, hbatch, hf, hparse]
              rw [hred] at h
              simp at h
            | some ed =>
              by_cases hu : env.uploadOk
              case pos =>
                have hred : (processNextBatch env db).caught = none := by
                  simp [processNextBatch, hdb, hterm, hq, hbatch, hf, hparse, hu]
                rw [hred] at h
                simp at h
              case neg =>
                have hred : processNextBatch env db
                    = { db := { db with job := some (setJobFailed job "upload error") }
                        events := [.failedSet "upload error"]
                        caught := some "upload error" } := by
                  simp [processNextBatch, hdb, hterm, hq, hbatch, hf, hparse, hu]
                rw [hred] at h ⊢
                simp_all [setJobFailed]

/-- Witness for C4 (amended): a concrete invocation whose staging upload
throws ends with the job failed and the message recorded. -/
theorem c4_export_exception_writes_failed_witness :
    ∃ j, (processNextBatch
      { pagesQueryOk := true, fetchOk := true, uploadOk := false, listOk := true
        zipUploadOk := true, removeFails := fun _ => false, timestamp := 5 }
      { job := some { user_id := "u", book_id := "b", book_title := "t", status := .processing
                      total_pages := 1, processed_pages := 0, current_offset := 0
                      download_url := none, error_message := none, completed_at := false }
        pages := [{ id := "aa-bb", book_id := "b", user_id := "u", page_number := 1
                    prompt := "p", image_url := "data:image/png;base64,AAA"
                    art_style := "line_art" }]
        staged := [], archives := [] }).db.job = some j
      ∧ j.status = .failed ∧ j.error_message = some "upload error" ∧ j.completed_at = true :=
  c4_export_exception_writes_failed
    { pagesQueryOk := true, fetchOk := true, uploadOk := false, listOk := true
      zipUploadOk := true, removeFails := fun _ => false, timestamp := 5 }
    { job := some { user_id := "u", book_id := "b", book_title := "t", status := .processing
                    total_pages := 1, processed_pages := 0, current_offset := 0
                    download_url := none, error_message := none, completed_at := false }
      pages := [{ id := "aa-bb", book_id := "b", user_id := "u", page_number := 1
                  prompt := "p", image_url := "data:image/png;base64,AAA"
                  art_style := "line_art" }]
      staged := [], archives := [] }
    "upload error" (by decide)

/-! ### C8 -/

/-- C8 counterexample: invoking the generation processor for a job id that
does not exist returns an HTTP 404 error response ("Job not found"), not a
silent no-op — though no state is mutated. -/
theorem c8_generation_not_found_is_error_cex :
    (processGenerationJob { hasJobId := true, promptIndex := none }
      { apiConfigured := true, provider := .noArtifact, insertOk := true }
      { job := none, pages := [] }).response = .jobNotFound
    ∧ genHttpStatus (processGenerationJob { hasJobId := true, promptIndex := none }
      { apiConfigured := true, provider := .noArtifact, insertOk := true }
      { job := none, pages := [] }).response = 404 := by
  decide

/-- C8 (amended): invocation on an unknown or already-terminal job performs no
state mutation in either processor; the export processor is silent in both
cases, and the generation processor is silent on a terminal job (200) but
reports an unknown job id as a 404 error response. -/
theorem c8_guard_no_mutation :
    (∀ (env : ExportEnv) (db : ExportDb), db.job = none →
      processNextBatch env db = { db := db, events := [], caught := none })
    ∧ (∀ (env : ExportEnv) (db : ExportDb) (j : ExportJob), db.job = some j →
      (j.status = .completed ∨ j.status = .failed) →
      processNextBatch env db = { db := db, events := [], caught := none })
    ∧ (∀ (req : GenRequest) (env : GenEnv) (db : GenDb),
      req.hasJobId = true → db.job = none →
      processGenerationJob req env db
        = { db := db, scheduledNext := none, response := .jobNotFound })
    ∧ (∀ (req : GenRequest) (env : GenEnv) (db : GenDb) (j : GenJob),
      req.hasJobId = true → db.job = some j →
      (j.status = .completed ∨ j.status = .failed) →
      processGenerationJob req env db
        = { db := db, scheduledNext := none, response := .alreadyFinished }) := by
  refine ⟨fun env db h => ?_, fun env db j h ht => ?_, fun req env db hr h => ?_,
    fun req env db j hr h ht => ?_⟩
  · simp [processNextBatch, h]
  · simp [processNextBatch, h, ht]
  · simp [processGenerationJob, hr, h]
  · simp [processGenerationJob, hr, h, ht]

/-- Witness for C8 (amended): a terminal export job is a silent no-op. -/
theorem c8_guard_no_mutation_witness :
    processNextBatch
      { pagesQueryOk := true, fetchOk := true, uploadOk := true, listOk := true
        zipUploadOk := true, removeFails := fun _ => false, timestamp := 5 }
      { job := some { user_id := "u", book_id := "b", book_title := "t", status := .completed
                      total_pages := 1, processed_pages := 1, current_offset := 1
                      download_url := some "exports/u/t_5.zip", error_message := none
                      completed_at := true }
        pages := [], staged := [], archives := ["exports/u/t_5.zip"] }
      = { db := { job := some { user_id := "u", book_id := "b", book_title := "t"
                                status := .completed, total_pages := 1, processed_pages := 1
                                current_offset := 1, download_url := some "exports/u/t_5.zip"
                                error_message := none, completed_at := true }
                  pages := [], staged := [], archives := ["exports/u/t_5.zip"] }
          events := [], caught := none } :=
  c8_guard_no_mutation.2.1
    { pagesQueryOk := true, fetchOk := true, uploadOk := true, listOk := true
      zipUploadOk := true, removeFails := fun _ => false, timestamp := 5 }
    { job := some { user_id := "u", book_id := "b", book_title := "t", status := .completed
                    total_pages := 1, processed_pages := 1, current_offset := 1
                    download_url := some "exports/u/t_5.zip", error_message := none
                    completed_at := true }
      pages := [], staged := [], archives := ["exports/u/t_5.zip"] }
    { user_id := "u", book_id := "b", book_title := "t", status := .completed
      total_pages := 1, processed_pages := 1, current_offset := 1
      download_url := some "exports/u/t_5.zip", error_message := none, completed_at := true }
    rfl (Or.inl rfl)

/-! ### C3 -/

/-- Reflexive case of the status order. -/
theorem statusLe_refl (a : JobStatus) : statusLe a a := Or.inl rfl

/-- A non-terminal status may step to completed or failed. -/
theorem statusLe_to_terminal (a : JobStatus) (h : ¬ (a = .completed ∨ a = .failed))
    (b : JobStatus) (hb : b = .completed ∨ b = .failed) : statusLe a b := by
  cases a with
  | pending => exact Or.inr (Or.inl rfl)
  | processing => exact Or.inr (Or.inr ⟨rfl, hb⟩)
  | completed => exact absurd (Or.inl rfl) h
  | failed => exact absurd (Or.inr rfl) h

/-- C3: export status transitions are monotone along pending → processing →
{completed, failed}.  A terminal job is left untouched by any further
invocation, every invocation only moves the status forward, and once
finalize persists the completed row the cleanup removals — whose failures
come back as returned error values the loop discards, never as exceptions —
can never flip it back: with the query, list and zip upload succeeding, the
job ends completed with its download url whatever the removals do. -/
theorem c3_export_status_monotone :
    (∀ (env : ExportEnv) (db : ExportDb) (j : ExportJob),
      db.job = some j → (j.status = .completed ∨ j.status = .failed) →
      (processNextBatch env db).db = db)
    ∧ (∀ (env : ExportEnv) (db : ExportDb) (j j' : ExportJob),
      db.job = some j → (processNextBatch env db).db.job = some j' →
      statusLe j.status j'.status)
    ∧ (∀ (env : ExportEnv) (db : ExportDb) (j : ExportJob),
      db.job = some j → ¬ (j.status = .completed ∨ j.status = .failed) →
      env.pagesQueryOk = true → env.listOk = true → env.zipUploadOk = true →
      db.staged ≠ [] →
      (sortPages (bookPages db.pages j.book_id)).length ≤ j.current_offset →
      ∃ j', (processNextBatch env db).db.job = some j'
        ∧ j'.status = .completed ∧ j'.download_url ≠ none) := by
  refine ⟨?_, ?_, ?_⟩
  · intro env db j hdb hterm
    simp [processNextBatch, hdb, hterm]
  · intro env db j j' hdb hj'
    by_cases hterm : j.status = .completed ∨ j.status = .failed
    · have hred : (processNextBatch env db).db = db := by
        simp [processNextBatch, hdb, hterm]
      rw [hred, hdb] at hj'
      obtain rfl := Option.some.inj hj'
      exact statusLe_refl _
    · by_cases hq : env.pagesQueryOk
      case neg =>
        have hred : (processNextBatch env db).db.job
            = some (setJobFailed j "pages query error") := by
          simp [processNextBatch, hdb, hterm, hq]
        rw [hred] at hj'
        obtain rfl := Option.some.inj hj'
        exact statusLe_to_terminal _ hterm _ (Or.inr rfl)
      case pos =>
        cases hbatch : List.take 1 (List.drop j.current_offset
            (sortPages (bookPages db.pages j.book_id))) with
        | nil =>
          have hredf : processNextBatch env db = finalizeExport env j db := by
            simp [processNextBatch, hdb, hterm, hq, hbatch]
          rw [hredf] at hj'
          clear hbatch
          by_cases hl : env.listOk
          case neg =>
            have hred : (finalizeExport env j db).db.job
                = some (setJobFailed j "list error") := by
              simp [finalizeExport, hl]
            rw [hred] at hj'
            obtain rfl := Option.some.inj hj'
            exact statusLe_to_terminal _ hterm _ (Or.inr rfl)
          case pos =>
            by_cases hst : db.staged = []
            · have hred : (finalizeExport env j db).db.job
                  = some (setJobFailed j "No files to archive") := by
                simp [finalizeExport, hl, hst]
              rw [hred] at hj'
              obtain rfl := Option.some.inj hj'
              exact statusLe_to_terminal _ hterm _ (Or.inr rfl)
            · by_cases hz : env.zipUploadOk
              case neg =>
                have hred : (finalizeExport env j db).db.job
                    = some (setJobFailed j "zip upload error") := by
                  simp [finalizeExport, hl, hst, hz]
                rw [hred] at hj'
                obtain rfl := Option.some.inj hj'
                exact statusLe_to_terminal _ hterm _ (Or.inr rfl)
              case pos =>
                have hred : (finalizeExport env j db).db.job
                    = some { j with
                        status := .completed
                        download_url := some ("exports/" ++ j.user_id ++ "/"
                          ++ j.book_title ++ "_" ++ toString env.timestamp ++ ".zip")
                        completed_at := true } := by
                  simp [finalizeExport, hl, hst, hz]
                rw [hred] at hj'
                obtain rfl := Option.some.inj hj'
                exact statusLe_to_terminal _ hterm _ (Or.inl rfl)
        | cons page rest =>
          by_cases hf : env.fetchOk
          case neg =>
            have hred : (processNextBatch env db).db.job
                = some (setJobFailed j "page fetch error") := by
              simp [processNextBatch, hdb, hterm, hq, hbatch, hf]
            rw [hred] at hj'
            obtain rfl := Option.some.inj hj'
            exact statusLe_to_terminal _ hterm _ (Or.inr rfl)
          case pos =>
            cases hparse : parseDataUrl page.image_url with
            | none =>
              have hred : (processNextBatch env db).db = db := by
                simp [processNextBatch, hdb, hterm, hq, hbatch, hf, hparse]
              rw [hred, hdb] at hj'
              obtain rfl := Option.some.inj hj'
              exact statusLe_refl _
            | some ed =>
              by_cases hu : env.uploadOk
              case neg =>
                have hred : (processNextBatch env db).db.job
                    = some (setJobFailed j "upload error") := by
                  simp [processNextBatch, hdb, hterm, hq, hbatch, hf, hparse, hu]
                rw [hred] at hj'
                obtain rfl := Option.some.inj hj'
                exact statusLe_to_terminal _ hterm _ (Or.inr rfl)
              case pos =>
                have hred : (processNextBatch env db).db.job
                    = some { j with
                        current_offset := j.current_offset + 1
                        processed_pages := j.processed_pages + 1 } := by
                  simp [processNextBatch, hdb, hterm, hq, hbatch, hf, hparse, hu]
                rw [hred] at hj'
                obtain rfl := Option.some.inj hj'
                exact Or.inl rfl
  · intro env db j hdb hterm hq hl hz hstg hlen
    have htake : List.take 1 (List.drop j.current_offset
        (sortPages (bookPages db.pages j.book_id))) = [] := by
      rw [List.drop_eq_nil_of_le hlen]
      rfl
    have hred : (processNextBatch env db).db.job
        = some { j with
            status := .completed
            download_url := some ("exports/" ++ j.user_id ++ "/" ++ j.book_title
              ++ "_" ++ toString env.timestamp ++ ".zip")
            completed_at := true } := by
      simp [processNextBatch, finalizeExport, hdb, hterm, hq, htake, hl, hz, hstg]
    exact ⟨_, hred, rfl, by simp⟩

/-- Witness for C3: a finalize-ready job whose every staged-object removal
fails still ends completed with a download url. -/
theorem c3_export_status_monotone_witness :
    ∃ j', (processNextBatch
      { pagesQueryOk := true, fetchOk := true, uploadOk := true, listOk := true
        zipUploadOk := true, removeFails := fun _ => true, timestamp := 5 }
      { job := some { user_id := "u", book_id := "b", book_title := "t", status := .processing
                      total_pages := 1, processed_pages := 1, current_offset := 1
                      download_url := none, error_message := none, completed_at := false }
        pages := [{ id := "aa-bb", book_id := "b", user_id := "u", page_number := 1
                    prompt := "p", image_url := "data:image/png;base64,AAA"
                    art_style := "line_art" }]
        staged := ["0001_aa.png"], archives := [] }).db.job = some j'
      ∧ j'.status = .completed ∧ j'.download_url ≠ none :=
  c3_export_status_monotone.2.2
    { pagesQueryOk := true, fetchOk := true, uploadOk := true, listOk := true
      zipUploadOk := true, removeFails := fun _ => true, timestamp := 5 }
    { job := some { user_id := "u", book_id := "b", book_title := "t", status := .processing
                    total_pages := 1, processed_pages := 1, current_offset := 1
                    download_url := none, error_message := none, completed_at := false }
      pages := [{ id := "aa-bb", book_id := "b", user_id := "u", page_number := 1
                  prompt := "p", image_url := "data:image/png;base64,AAA"
                  art_style := "line_art" }]
      staged := ["0001_aa.png"], archives := [] }
    { user_id := "u", book_id := "b", book_title := "t", status := .processing
      total_pages := 1, processed_pages := 1, current_offset := 1
      download_url := none, error_message := none, completed_at := false }
    rfl (by decide) rfl rfl rfl (by decide) (by decide)

/-! ### C5 -/

/-- The single-element window read by the cursor: if position n holds a, the
`range(n, n)` slice is exactly [a]. -/
theorem take_one_drop_of_getElem? {α : Type} (l : List α) (n : Nat) (a : α)
    (h : l[n]? = some a) : List.take 1 (List.drop n l) = [a] := by
  have hn : n < l.length := by
    by_contra hc
    push_neg at hc
    rw [List.getElem?_eq_none hc] at h
    cases h
  rw [List.drop_eq_getElem_cons hn]
  rw [List.getElem?_eq_getElem hn] at h
  simp only [Option.some.injEq] at h
  simp [h]

/-- C5 counterexample: a processing export job whose cursor page stores a
plain https url instead of an inline base64 data url.  The invocation stages
nothing, advances neither processed_pages nor current_offset, and still
schedules the next invocation — contradicting "each such invocation makes
exactly one unit of progress". -/
theorem c5_non_dataurl_no_progress_cex :
    (processNextBatch
      { pagesQueryOk := true, fetchOk := true, uploadOk := true, listOk := true
        zipUploadOk := true, removeFails := fun _ => false, timestamp := 5 }
      { job := some { user_id := "u", book_id := "b", book_title := "t", status := .processing
                      total_pages := 1, processed_pages := 0, current_offset := 0
                      download_url := none, error_message := none, completed_at := false }
        pages := [{ id := "aa-bb", book_id := "b", user_id := "u", page_number := 1
                    prompt := "p", image_url := "https://x.com/a.png"
                    art_style := "line_art" }]
        staged := [], archives := [] })
      = { db := { job := some { user_id := "u", book_id := "b", book_title := "t"
                                status := .processing, total_pages := 1, processed_pages := 0
                                current_offset := 0, download_url := none
                                error_message := none, completed_at := false }
                  pages := [{ id := "aa-bb", book_id := "b", user_id := "u", page_number := 1
                              prompt := "p", image_url := "https://x.com/a.png"
                              art_style := "line_art" }]
                  staged := [], archives := [] }
          events := [.scheduled], caught := none } := by
  decide

/-- C5 (amended): when the page at the cursor stores an inline base64 data
url and the staging upload succeeds, the invocation stages exactly that page
under its deterministic filename and advances processed_pages and
current_offset each by exactly one, persisting the new values before the
self-invocation fires (the event order is stage, progress write, schedule);
a cursor page without a data-url payload is skipped without any progress,
with the next invocation still scheduled. -/
theorem c5_export_unit_progress (env : ExportEnv) (db : ExportDb) (job : ExportJob)
    (page : Page) (ext dat : String)
    (hj : db.job = some job)
    (hs : job.status = .processing)
    (hq : env.pagesQueryOk = true) (hf : env.fetchOk = true) (hu : env.uploadOk = true)
    (hp : (sortPages (bookPages db.pages job.book_id))[job.current_offset]? = some page)
    (hb : parseDataUrl page.image_url = some (ext, dat)) :
    processNextBatch env db
      = { db := { db with
            job := some { job with
              current_offset := job.current_offset + 1
              processed_pages := job.processed_pages + 1 }
            staged := putObject (pageFilename page) db.staged }
          events := [.staged (pageFilename page),
                     .progress (job.current_offset + 1) (job.processed_pages + 1),
                     .scheduled]
          caught := none } := by
  have hterm : ¬ (job.status = .completed ∨ job.status = .failed) := by
    rw [hs]
    simp
  have htake := take_one_drop_of_getElem? _ _ _ hp
  simp [processNextBatch, hj, hterm, hq, htake, hf, hb, hu]

/-- Witness for C5 (amended) at a concrete job with a base64 page at cursor 0. -/
theorem c5_export_unit_progress_witness :
    processNextBatch
      { pagesQueryOk := true, fetchOk := true, uploadOk := true, listOk := true
        zipUploadOk := true, removeFails := fun _ => false, timestamp := 5 }
      { job := some { user_id := "u", book_id := "b", book_title := "t", status := .processing
                      total_pages := 1, processed_pages := 0, current_offset := 0
                      download_url := none, error_message := none, completed_at := false }
        pages := [{ id := "aa-bb", book_id := "b", user_id := "u", page_number := 1
                    prompt := "p", image_url := "data:image/png;base64,AAA"
                    art_style := "line_art" }]
        staged := [], archives := [] }
      = { db := { job := some { user_id := "u", book_id := "b", book_title := "t"
                                status := .processing, total_pages := 1, processed_pages := 1
                                current_offset := 1, download_url := none
                                error_message := none, completed_at := false }
                  pages := [{ id := "aa-bb", book_id := "b", user_id := "u", page_number := 1
                              prompt := "p", image_url := "data:image/png;base64,AAA"
                              art_style := "line_art" }]
                  staged := ["0001_aa.png"], archives := [] }
          events := [.staged "0001_aa.png", .progress 1 1, .scheduled]
          caught := none } := by
  have h := c5_export_unit_progress
    { pagesQueryOk := true, fetchOk := true, uploadOk := true, listOk := true
      zipUploadOk := true, removeFails := fun _ => false, timestamp := 5 }
    { job := some { user_id := "u", book_id := "b", book_title := "t", status := .processing
                    total_pages := 1, processed_pages := 0, current_offset := 0
                    download_url := none, error_message := none, completed_at := false }
      pages := [{ id := "aa-bb", book_id := "b", user_id := "u", page_number := 1
                  prompt := "p", image_url := "data:image/png;base64,AAA"
                  art_style := "line_art" }]
      staged := [], archives := [] }
    { user_id := "u", book_id := "b", book_title := "t", status := .processing
      total_pages := 1, processed_pages := 0, current_offset := 0
      download_url := none, error_message := none, completed_at := false }
    { id := "aa-bb", book_id := "b", user_id := "u", page_number := 1
      prompt := "p", image_url := "data:image/png;base64,AAA", art_style := "line_art" }
    "png" "AAA" rfl rfl rfl rfl rfl (by decide) (by decide)
  rw [h]
  decide

/-! ### C7 -/

/-- C7: given a non-terminal export job for the book among the stored jobs,
a new export request attaches to an existing non-terminal job for that book
(returning its id) and leaves the export_jobs table unchanged — no second
row is created. -/
theorem c7_export_dedup (jobs : List (String × ExportJob))
    (bookId bookTitle userId newId : String) (pages : List Page)
    (e0 : String × ExportJob)
    (hmem : e0 ∈ jobs) (hbk : e0.2.book_id = bookId) (hact : isActiveJob e0.2 = true) :
    (handleExportAll jobs bookId bookTitle userId newId pages).1 = jobs
    ∧ ∃ e, e ∈ jobs ∧ e.2.book_id = bookId ∧ isActiveJob e.2 = true
        ∧ (handleExportAll jobs bookId bookTitle userId newId pages).2 = .resumed e.1 := by
  have hne : jobs.filter (fun e => e.2.book_id = bookId && isActiveJob e.2) ≠ [] := by
    intro hnil
    have hmf : e0 ∈ jobs.filter (fun e => e.2.book_id = bookId && isActiveJob e.2) := by
      rw [List.mem_filter]
      exact ⟨hmem, by simp [hbk, hact]⟩
    rw [hnil] at hmf
    cases hmf
  obtain ⟨e, t, hft⟩ : ∃ e t,
      jobs.filter (fun x => x.2.book_id = bookId && isActiveJob x.2) = e :: t := by
    cases hfs : jobs.filter (fun x => x.2.book_id = bookId && isActiveJob x.2) with
    | nil => exact absurd hfs hne
    | cons a b => exact ⟨a, b, rfl⟩
  have hfind : findActiveJob jobs bookId = some e := by
    simp [findActiveJob, hft]
  have hef : e ∈ jobs.filter (fun x => x.2.book_id = bookId && isActiveJob x.2) := by
    rw [hft]
    exact List.mem_cons_self e t
  have hprops := List.mem_filter.mp hef
  have hpe : e.2.book_id = bookId ∧ isActiveJob e.2 = true := by
    have := hprops.2
    simpa using this
  refine ⟨by simp [handleExportAll, hfind], e, hprops.1, hpe.1, hpe.2, ?_⟩
  simp [handleExportAll, hfind]

/-- Witness for C7 at a table holding one processing job for the book. -/
theorem c7_export_dedup_witness :
    (handleExportAll
      [("j1", { user_id := "u", book_id := "b", book_title := "t", status := .processing
                total_pages := 2, processed_pages := 1, current_offset := 1
                download_url := none, error_message := none, completed_at := false })]
      "b" "t" "u" "j2" []).1
      = [("j1", { user_id := "u", book_id := "b", book_title := "t", status := .processing
                  total_pages := 2, processed_pages := 1, current_offset := 1
                  download_url := none, error_message := none, completed_at := false })] := by
  have h := c7_export_dedup
    [("j1", { user_id := "u", book_id := "b", book_title := "t", status := .processing
              total_pages := 2, processed_pages := 1, current_offset := 1
              download_url := none, error_message := none, completed_at := false })]
    "b" "t" "u" "j2" []
    ("j1", { user_id := "u", book_id := "b", book_title := "t", status := .processing
             total_pages := 2, processed_pages := 1, current_offset := 1
             download_url := none, error_message := none, completed_at := false })
    (List.mem_singleton.mpr rfl) rfl (by decide)
  exact h.1

/-! ### C6 -/

/-- Sorted insertion grows the list by one. -/
theorem insertPageSorted_length (p : Page) (l : List Page) :
    (insertPageSorted p l).length = l.length + 1 := by
  induction l with
  | nil => rfl
  | cons q t ih =>
    simp only [insertPageSorted]
    split
    · simp
    · simp [ih]

/-- The ordered view has the same number of pages as the raw table. -/
theorem sortPages_length (l : List Page) : (sortPages l).length = l.length := by
  induction l with
  | nil => rfl
  | cons p t ih => simp [sortPages, insertPageSorted_length, ih]

/-- One export invocation preserves the counter invariant and never decreases
processed_pages, whatever the environment does. -/
theorem processNextBatch_inv (env : ExportEnv) (db : ExportDb) (h : exportInv db) :
    exportInv (processNextBatch env db).db
    ∧ jobProcessed db ≤ jobProcessed (processNextBatch env db).db := by
  cases hdb : db.job with
  | none =>
    have hred : processNextBatch env db = { db := db, events := [], caught := none } := by
      simp [processNextBatch, hdb]
    rw [hred]
    exact ⟨h, le_refl _⟩
  | some job =>
    have h3 : job.processed_pages = job.current_offset
        ∧ job.total_pages = (bookPages db.pages job.book_id).length
        ∧ job.processed_pages ≤ job.total_pages := by
      simpa [exportInv, hdb] using h
    by_cases hterm : job.status = .completed ∨ job.status = .failed
    · have hred : processNextBatch env db = { db := db, events := [], caught := none } := by
        simp [processNextBatch, hdb, hterm]
      rw [hred]
      exact ⟨h, le_refl _⟩
    · by_cases hq : env.pagesQueryOk
      case neg =>
        have hred : processNextBatch env db
            = { db := { db with job := some (setJobFailed job "pages query error") }
                events := [.failedSet "pages query error"]
                caught := some "pages query error" } := by
          simp [processNextBatch, hdb, hterm, hq]
        rw [hred]
        exact ⟨by simpa [exportInv, setJobFailed] using h3,
          by simp [jobProcessed, hdb, setJobFailed]⟩
      case pos =>
        cases hbatch : List.take 1 (List.drop job.current_offset
            (sortPages (bookPages db.pages job.book_id))) with
        | nil =>
          have hred : processNextBatch env db = finalizeExport env job db := by
            simp [processNextBatch, hdb, hterm, hq, hbatch]
          rw [hred]
          clear hbatch
          by_cases hl : env.listOk
          case neg =>
            refine ⟨?_, ?_⟩ <;>
              simp [finalizeExport, hl, exportInv, jobProcessed, hdb, setJobFailed, h3] <;>
              omega
          case pos =>
            by_cases hst : db.staged = []
            · refine ⟨?_, ?_⟩ <;>
                simp [finalizeExport, hl, hst, exportInv, jobProcessed, hdb,
                  setJobFailed, h3] <;>
                omega
            · by_cases hz : env.zipUploadOk
              case neg =>
                refine ⟨?_, ?_⟩ <;>
                  simp [finalizeExport, hl, hst, hz, exportInv, jobProcessed, hdb,
                    setJobFailed, h3] <;>
                  omega
              case pos =>
                refine ⟨?_, ?_⟩ <;>
                  simp [finalizeExport, hl, hst, hz, exportInv, jobProcessed, hdb, h3] <;>
                  omega
        | cons page rest =>
          have hlt : job.current_offset < (bookPages db.pages job.book_id).length := by
            by_contra hc
            push_neg at hc
            rw [← sortPages_length (bookPages db.pages job.book_id)] at hc
            rw [List.drop_eq_nil_of_le hc] at hbatch
            simp at hbatch
          by_cases hf : env.fetchOk
          case neg =>
            have hred : processNextBatch env db
                = { db := { db with job := some (setJobFailed job "page fetch error") }
                    events := [.failedSet "page fetch error"]
                    caught := some "page fetch error" } := by
              simp [processNextBatch, hdb, hterm, hq, hbatch, hf]
            rw [hred]
            exact ⟨by simpa [exportInv, setJobFailed] using h3,
              by simp [jobProcessed, hdb, setJobFailed]⟩
          case pos =>
            cases hparse : parseDataUrl page.image_url with
            | none =>
              have hred : processNextBatch env db
                  = { db := db, events := [.scheduled], caught := none } := by
                simp [processNextBatch, hdb, hterm, hq, hbatch, hf, hparse]
              rw [hred]
              exact ⟨h, le_refl _⟩
            | some ed =>
              by_cases hu : env.uploadOk
              case neg =>
                have hred : processNextBatch env db
                    = { db := { db with job := some (setJobFailed job "upload error") }
                        events := [.failedSet "upload error"]
                        caught := some "upload error" } := by
                  simp [processNextBatch, hdb, hterm, hq, hbatch, hf, hparse, hu]
                rw [hred]
                exact ⟨by simpa [exportInv, setJobFailed] using h3,
                  by simp [jobProcessed, hdb, setJobFailed]⟩
              case pos =>
                have hred : processNextBatch env db
                    = { db := { db with
                          job := some { job with
                            current_offset := job.current_offset + 1
                            processed_pages := job.processed_pages + 1 }
                          staged := putObject (pageFilename page) db.staged }
                        events := [.staged (pageFilename page),
                                   .progress (job.current_offset + 1)
                                     (job.processed_pages + 1), .scheduled]
                        caught := none } := by
                  simp [processNextBatch, hdb, hterm, hq, hbatch, hf, hparse, hu]
                rw [hred]
                refine ⟨?_, by simp [jobProcessed, hdb]⟩
                simp only [exportInv]
                refine ⟨by omega, h3.2.1, by omega⟩

/-- C6: over any sequence of export invocations, processed_pages mirrors the
cursor and never exceeds total_pages, and it is non-decreasing; the job row
created by the entry point establishes the invariant. -/
theorem c6_export_progress_monotone (envs : List ExportEnv) (db : ExportDb)
    (h : exportInv db) :
    (exportInv (runExport envs db)
      ∧ jobProcessed db ≤ jobProcessed (runExport envs db))
    ∧ ∀ (userId bookId title : String) (pages : List Page),
      exportInv { job := some (createExportJob userId bookId title pages)
                  pages := pages, staged := [], archives := [] } := by
  constructor
  · induction envs generalizing db with
    | nil => exact ⟨h, le_refl _⟩
    | cons e es ih =>
      have hstep := processNextBatch_inv e db h
      have hrec := ih (processNextBatch e db).db hstep.1
      exact ⟨hrec.1, le_trans hstep.2 hrec.2⟩
  · intro userId bookId title pages
    simp [exportInv, createExportJob]

/-- Witness for C6 at a freshly created one-page export job run through two
invocations. -/
theorem c6_export_progress_monotone_witness :
    exportInv (runExport
      [{ pagesQueryOk := true, fetchOk := true, uploadOk := true, listOk := true
         zipUploadOk := true, removeFails := fun _ => false, timestamp := 5 }]
      { job := some { user_id := "u", book_id := "b", book_title := "t", status := .processing
                      total_pages := 1, processed_pages := 0, current_offset := 0
                      download_url := none, error_message := none, completed_at := false }
        pages := [{ id := "aa-bb", book_id := "b", user_id := "u", page_number := 1
                    prompt := "p", image_url := "data:image/png;base64,AAA"
                    art_style := "line_art" }]
        staged := [], archives := [] }) := by
  have h := c6_export_progress_monotone
    [{ pagesQueryOk := true, fetchOk := true, uploadOk := true, listOk := true
       zipUploadOk := true, removeFails := fun _ => false, timestamp := 5 }]
    { job := some { user_id := "u", book_id := "b", book_title := "t", status := .processing
                    total_pages := 1, processed_pages := 0, current_offset := 0
                    download_url := none, error_message := none, completed_at := false }
      pages := [{ id := "aa-bb", book_id := "b", user_id := "u", page_number := 1
                  prompt := "p", image_url := "data:image/png;base64,AAA"
                  art_style := "line_art" }]
      staged := [], archives := [] }
    (by simp [exportInv, bookPages])
  exact h.1.1

/-! ### C9 -/

/-- Unfolding one step of the expected page sequence. -/
theorem genPages_succ (j : GenJob) (ps : List String) (urls : Nat → String)
    (base : Int) (i r : Nat) :
    genPages j ps urls base i (r + 1)
      = mkGenPage j (base + 1) (ps.getD i "") (urls i)
        :: genPages j ps urls (base + 1) (i + 1) r := rfl

/-- The expected page sequence has one entry per prompt processed. -/
theorem genPages_length (j : GenJob) (ps : List String) (urls : Nat → String) :
    ∀ (r : Nat) (base : Int) (i : Nat), (genPages j ps urls base i r).length = r := by
  intro r
  induction r with
  | zero => intro base i; rfl
  | succ t ih =>
    intro base i
    simp [genPages_succ, ih]

/-- Entry t of the expected page sequence sits at position base + 1 + t and
carries prompt i + t. -/
theorem genPages_getElem? (j : GenJob) (ps : List String) (urls : Nat → String) :
    ∀ (r t : Nat) (base : Int) (i : Nat), t < r →
    (genPages j ps urls base i r)[t]?
      = some (mkGenPage j (base + 1 + t) (ps.getD (i + t) "") (urls (i + t))) := by
  intro r
  induction r with
  | zero => intro t base i ht; omega
  | succ s ih =>
    intro t base i ht
    cases t with
    | zero => simp [genPages_succ]
    | succ u =>
      rw [genPages_succ]
      simp only [List.getElem?_cons_succ]
      rw [ih u (base + 1) (i + 1) (by omega)]
      have e1 : base + 1 + 1 + (u : Int) = base + 1 + ((u + 1 : Nat) : Int) := by
        push_cast
        ring
      have e2 : i + 1 + u = i + (u + 1) := by omega
      rw [e1, e2]

/-- The expected page sequence only reads the job's book and owner ids. -/
theorem genPages_congr (j1 j2 : GenJob) (ps : List String) (urls : Nat → String)
    (h1 : j1.book_id = j2.book_id) (h2 : j1.user_id = j2.user_id) :
    ∀ (r : Nat) (base : Int) (i : Nat),
    genPages j1 ps urls base i r = genPages j2 ps urls base i r := by
  intro r
  induction r with
  | zero => intro base i; rfl
  | succ t ih =>
    intro base i
    simp [genPages_succ, mkGenPage, h1, h2, ih]

/-- An invocation at index 0 behaves identically on a pending job and on the
same job already flipped to processing: the flip is the first thing the
handler persists. -/
theorem genInvoke0_pending (env : GenEnv) (db : GenDb) (job : GenJob)
    (hj : db.job = some job) (hp : job.status = .pending) :
    genInvoke 0 env db
      = genInvoke 0 env { db with job := some { job with status := .processing } } := by
  cases hap : env.apiConfigured <;> cases hpr : env.provider <;>
    cases hio : env.insertOk <;> by_cases hlen : job.prompts.length ≤ 0 <;>
    simp [genInvoke, processGenerationJob, mkGenPage, hj, hp, hap, hpr, hio, hlen]

/-- Starting the chain on a pending job is the same as starting it on the
job already marked processing (for at least one invocation of fuel). -/
theorem runGenChain_pending (urls : Nat → String) (db : GenDb) (job : GenJob) (f : Nat)
    (hj : db.job = some job) (hp : job.status = .pending) :
    runGenChain urls db 0 (f + 1)
      = runGenChain urls { db with job := some { job with status := .processing } } 0 (f + 1) := by
  simp only [runGenChain]
  rw [show processGenerationJob { hasJobId := true, promptIndex := some 0 }
      (successEnv (urls 0)) db = genInvoke 0 (successEnv (urls 0)) db from rfl]
  rw [genInvoke0_pending (successEnv (urls 0)) db job hj hp]
  rfl

/-- The self-invocation chain on a processing job with r prompts left from
index i, every provider call succeeding: the job finishes completed with
completed_count advanced by r and failed_count untouched, and the book gains
exactly the expected page sequence. -/
theorem runGenChain_processing (ps : List String) (urls : Nat → String) :
    ∀ (r i fuel : Nat) (db : GenDb) (job : GenJob),
    db.job = some job →
    job.status = .processing →
    job.prompts = ps →
    i + r = ps.length →
    1 ≤ r → r ≤ fuel →
    (runGenChain urls db i fuel).job
        = some { job with
            status := .completed
            completed_at := true
            completed_count := job.completed_count + r }
    ∧ bookPages (runGenChain urls db i fuel).pages job.book_id
        = bookPages db.pages job.book_id
          ++ genPages job ps urls
              ((maxPageNum? (bookPages db.pages job.book_id)).getD 0) i r := by
  intro r
  induction r with
  | zero =>
    intro i fuel db job _ _ _ _ h1 _
    omega
  | succ t ih =>
    intro i fuel db job hj hproc hps hir _ hrf
    cases fuel with
    | zero => omega
    | succ f =>
      have hk : i < job.prompts.length := by
        rw [hps]
        omega
      have hflip : ¬ (i = 0 ∧ job.status = .pending) := by simp [hproc]
      have hstep := genStep_artifact db job i (urls i) (successEnv (urls i)) hj
        (by simp [hproc]) (by simp [hproc]) hk rfl rfl rfl
      cases t with
      | zero =>
        have hlast : ¬ (i + 1 < job.prompts.length) := by
          rw [hps]
          omega
        simp only [hflip, hlast, if_true, ite_true, if_false, ite_false,
          if_neg, not_false_iff] at hstep
        have hrun : runGenChain urls db i (f + 1)
            = (genInvoke i (successEnv (urls i)) db).db := by
          simp only [runGenChain]
          rw [show processGenerationJob { hasJobId := true, promptIndex := some i }
              (successEnv (urls i)) db = genInvoke i (successEnv (urls i)) db from rfl]
          rw [hstep]
        rw [hrun, hstep]
        constructor
        · rfl
        · rw [bookPages_append, bookPages_single
            (mkGenPage job (nextPageNumber (bookPages db.pages job.book_id))
              (job.prompts.getD i "") (urls i)) job.book_id rfl, genPages_succ]
          simp [genPages, nextPageNumber_eq, hps]
      | succ u =>
        have hnext : i + 1 < job.prompts.length := by
          rw [hps]
          omega
        simp only [hflip, hnext, if_true, ite_true, if_false, ite_false,
          if_neg, not_false_iff] at hstep
        have hrun : runGenChain urls db i (f + 1)
            = runGenChain urls
                { job := some { job with
                    completed_count := job.completed_count + 1
                    failed_count := job.failed_count }
                  pages := db.pages
                    ++ [mkGenPage job (nextPageNumber (bookPages db.pages job.book_id))
                          (job.prompts.getD i "") (urls i)] }
                (i + 1) f := by
          simp only [runGenChain]
          rw [show processGenerationJob { hasJobId := true, promptIndex := some i }
              (successEnv (urls i)) db = genInvoke i (successEnv (urls i)) db from rfl]
          rw [hstep]
        have ihr := ih (i + 1) f
          { job := some { job with
              completed_count := job.completed_count + 1
              failed_count := job.failed_count }
            pages := db.pages
              ++ [mkGenPage job (nextPageNumber (bookPages db.pages job.book_id))
                    (job.prompts.getD i "") (urls i)] }
          { job with
            completed_count := job.completed_count + 1
            failed_count := job.failed_count }
          rfl hproc hps (by omega) (by omega) (by omega)
        have ihr2 :
            (runGenChain urls
              { job := some { job with
                  completed_count := job.completed_count + 1
                  failed_count := job.failed_count }
                pages := db.pages
                  ++ [mkGenPage job (nextPageNumber (bookPages db.pages job.book_id))
                        (job.prompts.getD i "") (urls i)] }
              (i + 1) f).job
              = some { job with
                  status := .completed
                  completed_at := true
                  completed_count := job.completed_count + 1 + (u + 1) }
            ∧ bookPages (runGenChain urls
              { job := some { job with
                  completed_count := job.completed_count + 1
                  failed_count := job.failed_count }
                pages := db.pages
                  ++ [mkGenPage job (nextPageNumber (bookPages db.pages job.book_id))
                        (job.prompts.getD i "") (urls i)] }
              (i + 1) f).pages job.book_id
              = bookPages (db.pages
                  ++ [mkGenPage job (nextPageNumber (bookPages db.pages job.book_id))
                        (job.prompts.getD i "") (urls i)]) job.book_id
                ++ genPages
                    { job with
                      completed_count := job.completed_count + 1
                      failed_count := job.failed_count }
                    ps urls
                    ((maxPageNum? (bookPages (db.pages
                      ++ [mkGenPage job (nextPageNumber (bookPages db.pages job.book_id))
                            (job.prompts.getD i "") (urls i)]) job.book_id)).getD 0)
                    (i + 1) (u + 1) := ihr
        have hpgnum : (mkGenPage job (nextPageNumber (bookPages db.pages job.book_id))
            (job.prompts.getD i "") (urls i)).page_number
            = (maxPageNum? (bookPages db.pages job.book_id)).getD 0 + 1 := by
          simp [mkGenPage, nextPageNumber_eq]
        have hbk : bookPages (db.pages
              ++ [mkGenPage job (nextPageNumber (bookPages db.pages job.book_id))
                    (job.prompts.getD i "") (urls i)]) job.book_id
            = bookPages db.pages job.book_id
              ++ [mkGenPage job (nextPageNumber (bookPages db.pages job.book_id))
                    (job.prompts.getD i "") (urls i)] := by
          rw [bookPages_append, bookPages_single
            (mkGenPage job (nextPageNumber (bookPages db.pages job.book_id))
              (job.prompts.getD i "") (urls i)) job.book_id rfl]
        have hbase : (maxPageNum? (bookPages (db.pages
              ++ [mkGenPage job (nextPageNumber (bookPages db.pages job.book_id))
                    (job.prompts.getD i "") (urls i)]) job.book_id)).getD 0
            = (maxPageNum? (bookPages db.pages job.book_id)).getD 0 + 1 := by
          rw [hbk]
          exact maxPageNum?_getD_append_next _ _ hpgnum
        rw [hrun]
        constructor
        · rw [ihr2.1]
          have hcc : job.completed_count + 1 + (u + 1) = job.completed_count + (u + 1 + 1) := by
            omega
          simp [hcc]
        · rw [ihr2.2, hbase, hbk]
          rw [genPages_congr
            { job with
              completed_count := job.completed_count + 1
              failed_count := job.failed_count } job ps urls rfl rfl]
          simp only [genPages_succ, nextPageNumber_eq, hps, List.append_assoc,
            List.singleton_append, List.cons_append, List.nil_append]

/-- C9: for a pending generation job with N prompts and zero counts where
every invocation succeeds, the chain triggered at index 0 ends with the job
completed, completed_count = N and failed_count still 0, and the target book
gains exactly N new pages, at sequence positions start+1 .. start+N where
start is the book's maximum position before the job, each holding its prompt
and generated artifact. -/
theorem c9_generation_all_success (ps : List String) (urls : Nat → String)
    (db : GenDb) (job : GenJob)
    (hj : db.job = some job) (hst : job.status = .pending) (hps : job.prompts = ps)
    (hc : job.completed_count = 0) (hf : job.failed_count = 0) :
    (runGenChain urls db 0 (ps.length + 1)).job
      = some { job with
          status := .completed
          completed_at := true
          completed_count := ps.length
          failed_count := 0 }
    ∧ bookPages (runGenChain urls db 0 (ps.length + 1)).pages job.book_id
      = bookPages db.pages job.book_id
        ++ genPages job ps urls
            ((maxPageNum? (bookPages db.pages job.book_id)).getD 0) 0 ps.length
    ∧ (bookPages (runGenChain urls db 0 (ps.length + 1)).pages job.book_id).length
      = (bookPages db.pages job.book_id).length + ps.length
    ∧ ∀ t, t < ps.length →
      (genPages job ps urls ((maxPageNum? (bookPages db.pages job.book_id)).getD 0)
          0 ps.length)[t]?
        = some (mkGenPage job
            ((maxPageNum? (bookPages db.pages job.book_id)).getD 0 + 1 + t)
            (ps.getD t "") (urls t)) := by
  cases hN : ps with
  | nil =>
    subst hN
    have h0 : job.prompts.length ≤ 0 := by
      rw [hps]
      exact le_refl _
    refine ⟨?_, ?_, ?_, ?_⟩
    · simp [runGenChain, processGenerationJob, hj, hst, h0, hc, hf]
    · simp [runGenChain, processGenerationJob, genPages, hj, hst, h0]
    · simp [runGenChain, processGenerationJob, genPages, hj, hst, h0]
    · intro t ht
      simp at ht
  | cons p pt =>
    subst hN
    have hbridge := runGenChain_pending urls db job ((p :: pt).length) hj hst
    have hchain := runGenChain_processing (p :: pt) urls ((p :: pt).length) 0
      ((p :: pt).length + 1)
      { db with job := some { job with status := .processing } }
      { job with status := .processing }
      rfl rfl hps (by omega) (by simp) (by omega)
    have hchain2 :
        (runGenChain urls { db with job := some { job with status := .processing } } 0
            ((p :: pt).length + 1)).job
          = some { job with
              status := .completed
              completed_at := true
              completed_count := job.completed_count + (p :: pt).length }
        ∧ bookPages (runGenChain urls
            { db with job := some { job with status := .processing } } 0
            ((p :: pt).length + 1)).pages job.book_id
          = bookPages db.pages job.book_id
            ++ genPages { job with status := .processing } (p :: pt) urls
                ((maxPageNum? (bookPages db.pages job.book_id)).getD 0) 0
                (p :: pt).length := hchain
    have h1 : (runGenChain urls db 0 ((p :: pt).length + 1)).job
        = some { job with
            status := .completed
            completed_at := true
            completed_count := (p :: pt).length
            failed_count := 0 } := by
      rw [hbridge, hchain2.1]
      simp [hc, hf]
    have h2 : bookPages (runGenChain urls db 0 ((p :: pt).length + 1)).pages job.book_id
        = bookPages db.pages job.book_id
          ++ genPages job (p :: pt) urls
              ((maxPageNum? (bookPages db.pages job.book_id)).getD 0) 0 (p :: pt).length := by
      rw [hbridge, hchain2.2,
        genPages_congr { job with status := .processing } job (p :: pt) urls rfl rfl]
    refine ⟨h1, h2, ?_, ?_⟩
    · rw [h2, List.length_append, genPages_length]
    · intro t ht
      have := genPages_getElem? job (p :: pt) urls (p :: pt).length t
        ((maxPageNum? (bookPages db.pages job.book_id)).getD 0) 0 ht
      simpa using this

/-- Witness for C9 at a concrete two-prompt pending job on an empty book. -/
theorem c9_generation_all_success_witness :
    (runGenChain (fun _ => "img") sampleGenDb 0 3).job
      = some { sampleJob2 with
          status := .completed
          completed_at := true
          completed_count := 2 }
    ∧ (runGenChain (fun _ => "img") sampleGenDb 0 3).pages
      = [mkGenPage sampleJob2 1 "a" "img", mkGenPage sampleJob2 2 "b" "img"] := by
  have h := c9_generation_all_success ["a", "b"] (fun _ => "img") sampleGenDb sampleJob2
    rfl rfl rfl rfl rfl
  exact ⟨by simpa using h.1, by decide⟩

end InstantArt
